import Mathlib

/-!
Shallow embedding of the simulation core of the `snake` game repository:
the discrete grid model (`Point`, `State`, `GridElement`), the fixed-rate
simulation clock of `MainApp._main_loop`, the continuous-space projectile
physics (`Projectile`, `ProjectileManager`) and the turret aim state
(`Turret`).  Python ints are modelled as `Int`; Python floats (pygame
`Vector2` arithmetic, millisecond timestamps) are modelled exactly as `ℚ`
where only field operations occur, and as `ℝ` for the trigonometric turret
rotation.  Stateful methods become pure state-passing functions.
-/

/-! ## Discrete grid model (src/snake/elements.py) -/

/-- Modelled from the spec: the `State` enumeration (`snake/enums.py` is not
part of the staged sources).  The spec's DirectionState is one of
{Up, Down, Left, Right}; these are exactly the members `Point.clone`
branches on. -/
inductive State where
  | UP
  | DOWN
  | RIGHT
  | LEFT
deriving DecidableEq, Repr

/-- `Point` from src/snake/elements.py: a point in the grid, integer
coordinates (Python ints are unbounded, hence `Int`). -/
structure Point where
  x : Int
  y : Int
deriving DecidableEq, Repr

/-- `Point.clone` (src/snake/elements.py lines 27-39): return a new point in
a location based on the `State`.  The receiver is read, never written: the
embedding is a pure function producing a fresh `Point`. -/
def Point.clone (p : Point) (state : State) : Point :=
  let new_x := p.x
  let new_y := p.y
  let pair :=
    if state = State.UP then (new_x, new_y - 1)
    else if state = State.DOWN then (new_x, new_y + 1)
    else if state = State.RIGHT then (new_x + 1, new_y)
    else if state = State.LEFT then (new_x - 1, new_y)
    else (new_x, new_y)
  Point.mk pair.1 pair.2

/-- `Point.collision` (src/snake/elements.py lines 41-43): detect collision
between two points, `self.x == other.x and self.y == other.y`. -/
def Point.collision (p other : Point) : Bool :=
  p.x = other.x && p.y = other.y

/-- Pixel rectangle, mirroring pygame `Rect(left, top, width, height)`.
Fields are `ℚ` so the same type serves the integer grid rectangles and the
rational projectile arena. -/
structure Rect where
  left : ℚ
  top : ℚ
  width : ℚ
  height : ℚ
deriving DecidableEq, Repr

/-- pygame `Rect.collidepoint(x, y)`: true when the point is inside the
rectangle; a point along the right or bottom edge is not inside
(inclusive left/top, exclusive right/bottom). -/
def Rect.collidepoint (r : Rect) (x y : ℚ) : Bool :=
  decide (r.left ≤ x ∧ x < r.left + r.width ∧ r.top ≤ y ∧ y < r.top + r.height)

/-- `GridElement.rect` (src/snake/elements.py lines 89-97): the rectangle
representing the element, `Rect(p.x * step, p.y * step, step, step)` where
`step` is the grid's configured cell size in pixels. -/
def GridElement.rect (step : ℚ) (p : Point) : Rect :=
  Rect.mk (p.x * step) (p.y * step) step step

/-- `GridElement.render_pos` (src/snake/elements.py lines 99-102): render
position in screen coordinates, `(p.x * step, p.y * step)`. -/
def GridElement.render_pos (step : ℚ) (p : Point) : ℚ × ℚ :=
  ((p.x : ℚ) * step, (p.y : ℚ) * step)

/-! ## Simulation clock (src/snake/main.py) -/

/-- `MainApp.TICK_STEP` (src/snake/main.py line 47): difference in time
between ticks, 250.0 ms. -/
def TICK_STEP : ℚ := 250

/-- The tick condition of `MainApp._main_loop` (src/snake/main.py line 112):
`time_ms() > self._next_tick` — a strict comparison of the current time
against the next-tick deadline. -/
def shouldTick (now next_tick : ℚ) : Bool :=
  decide (now > next_tick)

/-- The clock portion of `MainApp._main_loop` (src/snake/main.py lines
110-117): when `time_ms() > self._next_tick`, the snake state is updated
(one tick fires, recorded by the Bool) and `self._next_tick` advances by
`TICK_STEP`; otherwise the deadline is unchanged and no tick fires.  The
body contains a single `if`, never a catch-up loop. -/
def mainLoopTick (now next_tick : ℚ) : Bool × ℚ :=
  if shouldTick now next_tick then (true, next_tick + TICK_STEP)
  else (false, next_tick)

/-! ## Projectile physics (src/snake/experimental/projectile.py) -/

/-- Componentwise addition of pygame `Vector2` values. -/
def vadd (a b : ℚ × ℚ) : ℚ × ℚ := (a.1 + b.1, a.2 + b.2)

/-- Scalar multiplication of a pygame `Vector2` value. -/
def vsmul (c : ℚ) (v : ℚ × ℚ) : ℚ × ℚ := (c * v.1, c * v.2)

/-- Squared Euclidean length of a `Vector2` (kept squared so it stays in ℚ). -/
def normSq (v : ℚ × ℚ) : ℚ := v.1 ^ 2 + v.2 ^ 2

/-- pygame `Vector2.lerp(b, t)` for `t ∈ [0, 1]`: `a + (b - a) * t`
componentwise (pygame raises ValueError outside that range, so the model is
only quoted under `0 ≤ t ≤ 1`). -/
def lerp (a b : ℚ × ℚ) (t : ℚ) : ℚ × ℚ :=
  (a.1 + (b.1 - a.1) * t, a.2 + (b.2 - a.2) * t)

/-- `ProjectileState` (src/snake/experimental/projectile.py lines 13-17). -/
inductive ProjectileState where
  | MOVING
  | DELETED
deriving DecidableEq, Repr

/-- `Projectile` (src/snake/experimental/projectile.py): the blueprint's
arena rectangle, the direction vector `_dir`, the current position
`_curr_pos`, and the lifecycle `state` (initialised to MOVING). -/
structure Projectile where
  blueprint : Rect
  dir : ℚ × ℚ
  curr_pos : ℚ × ℚ
  state : ProjectileState
deriving DecidableEq, Repr

/-- `Projectile.speed` (lines 56-59): the scalar speed, `0.05 = 1/20`. -/
def Projectile.speed (_p : Projectile) : ℚ := 1 / 20

/-- `Projectile.velocity` (lines 61-64): `self.speed * self._dir` — the
scalar speed times the raw direction vector (no normalisation occurs). -/
def Projectile.velocity (p : Projectile) : ℚ × ℚ :=
  vsmul p.speed p.dir

/-- `Projectile._oos_collision` (lines 36-44): out-of-screen test, true when
the current position is not inside the blueprint rectangle. -/
def Projectile.oos_collision (p : Projectile) : Bool :=
  !(p.blueprint.collidepoint p.curr_pos.1 p.curr_pos.2)

/-- `Projectile.process_logic` (lines 66-74): add the velocity to the
position, then, at the new position, flag the projectile DELETED when it is
out of the arena rectangle; otherwise leave the state unchanged. -/
def Projectile.process_logic (p : Projectile) : Projectile :=
  let moved := { p with curr_pos := vadd p.curr_pos p.velocity }
  if moved.oos_collision then { moved with state := ProjectileState.DELETED }
  else moved

/-- `Projectile.get_render_position` (lines 76-83): lerp between the current
position and the predicted next position `curr_pos + velocity`. -/
def Projectile.get_render_position (p : Projectile) (interp : ℚ) : ℚ × ℚ :=
  lerp p.curr_pos (vadd p.curr_pos p.velocity) interp

/-- `ProjectileManager.process_logic` (lines 107-115): step every projectile
once, collect those now DELETED into `to_be_removed`, and only afterwards
subtract that set from the collection (removal deferred to end-of-tick; the
unordered Python set is modelled as a list). -/
def ProjectileManager.process_logic (projectiles : List Projectile) : List Projectile :=
  let stepped := projectiles.map Projectile.process_logic
  let to_be_removed := stepped.filter (fun q => decide (q.state = ProjectileState.DELETED))
  stepped.filter (fun q => decide (q ∉ to_be_removed))

/-- The spec's end-to-end scenario projectile: arena rectangle
(0,0)-(600,600), spawn position (590,300), velocity (10,0) per tick
(direction (200,0), so that speed · dir = (10,0)). -/
def scenario_projectile : Projectile :=
  Projectile.mk (Rect.mk 0 0 600 600) (200, 0) (590, 300) ProjectileState.MOVING

/-! ## Turret aim state (src/snake/experimental/turret.py) -/

/-- Length of a pygame `Vector2` over ℝ (`Vector2.length()`). -/
noncomputable def Vector2.length (v : ℝ × ℝ) : ℝ :=
  Real.sqrt (v.1 ^ 2 + v.2 ^ 2)

/-- pygame `Vector2.from_polar((r, deg))`: the vector of length `r` at `deg`
degrees. -/
noncomputable def Vector2.from_polar (r angle_deg : ℝ) : ℝ × ℝ :=
  (r * Real.cos (angle_deg * Real.pi / 180),
   r * Real.sin (angle_deg * Real.pi / 180))

/-- pygame `Vector2.rotate(deg)`: rotation of the vector by `deg` degrees. -/
noncomputable def Vector2.rotate (v : ℝ × ℝ) (angle_deg : ℝ) : ℝ × ℝ :=
  (v.1 * Real.cos (angle_deg * Real.pi / 180)
      - v.2 * Real.sin (angle_deg * Real.pi / 180),
   v.1 * Real.sin (angle_deg * Real.pi / 180)
      + v.2 * Real.cos (angle_deg * Real.pi / 180))

/-- `Turret.INITIAL_ANGLE` (src/snake/experimental/turret.py line 18). -/
noncomputable def INITIAL_ANGLE : ℝ := -45

/-- `Turret.AIM_SENSITIVITY` (line 19): degrees per key press. -/
noncomputable def AIM_SENSITIVITY : ℝ := 10

/-- `Turret.AIM_RATE` (line 22): `1 / 3.4`. -/
noncomputable def AIM_RATE : ℝ := 1 / 3.4

/-- pygame event-type and key constants used by `Turret.handle_event`. -/
def KEYDOWN : Nat := 768

/-- pygame `K_RIGHT` key code. -/
def K_RIGHT : Nat := 1073741903

/-- pygame `K_LEFT` key code. -/
def K_LEFT : Nat := 1073741904

/-- A pygame event as `Turret.handle_event` inspects it: its type and key. -/
structure Event where
  etype : Nat
  key : Nat
deriving DecidableEq, Repr

/-- The turret state the aim claims concern: the aim direction vector
(`self.aim`); location and blueprint do not interact with the aim. -/
structure Turret where
  aim : ℝ × ℝ

/-- `Turret.__init__` (lines 40-43): the aim is set from polar coordinates
to length `block_size.length() * AIM_RATE` at `INITIAL_ANGLE` degrees. -/
noncomputable def Turret.init (block_size : ℝ × ℝ) : Turret :=
  Turret.mk (Vector2.from_polar (Vector2.length block_size * AIM_RATE) INITIAL_ANGLE)

/-- `Turret._decrease_angle` (lines 90-92): rotate the aim by
`AIM_SENSITIVITY` degrees. -/
noncomputable def Turret.decrease_angle (t : Turret) : Turret :=
  Turret.mk (Vector2.rotate t.aim AIM_SENSITIVITY)

/-- `Turret._increase_angle` (lines 94-96): rotate the aim by
`-AIM_SENSITIVITY` degrees. -/
noncomputable def Turret.increase_angle (t : Turret) : Turret :=
  Turret.mk (Vector2.rotate t.aim (-AIM_SENSITIVITY))

/-- `Turret.handle_event` (lines 98-111): non-KEYDOWN events return
immediately; on KEYDOWN, K_RIGHT decreases the aim angle, K_LEFT increases
it, and any other key maps to no action. -/
noncomputable def Turret.handle_event (t : Turret) (event : Event) : Turret :=
  if event.etype ≠ KEYDOWN then t
  else if event.key = K_RIGHT then t.decrease_angle
  else if event.key = K_LEFT then t.increase_angle
  else t

/-! ## Theorems for the discrete grid and clock claims -/

/-- C3: `Point.clone` applies the fixed delta table — Up decrements y, Down
increments y, Right increments x, Left decrements x, the orthogonal
coordinate unchanged in each case (the receiver is never mutated: `clone`
is a pure function returning a fresh `Point`); applying Right three times
to (5,5) yields (8,5). -/
theorem clone_delta_table (p : Point) :
    (p.clone State.UP).y = p.y - 1 ∧ (p.clone State.UP).x = p.x ∧
    (p.clone State.DOWN).y = p.y + 1 ∧ (p.clone State.DOWN).x = p.x ∧
    (p.clone State.RIGHT).x = p.x + 1 ∧ (p.clone State.RIGHT).y = p.y ∧
    (p.clone State.LEFT).x = p.x - 1 ∧ (p.clone State.LEFT).y = p.y ∧
    (((Point.mk 5 5).clone State.RIGHT).clone State.RIGHT).clone State.RIGHT
      = Point.mk 8 5 := by
  refine ⟨rfl, rfl, rfl, rfl, rfl, rfl, rfl, rfl, rfl⟩

/-- C4: `Point.collision` returns true iff the coordinates agree in both
components; it is symmetric and reflexive (purity and totality are
structural: it is a total function of its two arguments). -/
theorem collision_iff_eq_symm_refl (a b : Point) :
    (a.collision b = true ↔ a.x = b.x ∧ a.y = b.y) ∧
    a.collision b = b.collision a ∧
    a.collision a = true := by
  refine ⟨?_, ?_, ?_⟩
  · simp [Point.collision]
  · simp only [Point.collision]
    by_cases hx : a.x = b.x <;> by_cases hy : a.y = b.y <;>
      simp [hx, hy, eq_comm]
  · simp [Point.collision]

/-- C1 counterexample: the claim says `shouldTick(t0)` is true when the
deadline is `t0` (fires on `now ≥ nextDeadline`); the code compares with a
strict `>`, so at `now = nextDeadline = 0` the tick does not fire even
though `0 ≥ 0`. -/
theorem shouldTick_at_deadline_counterexample :
    ¬ (shouldTick 0 0 = true ↔ (0 : ℚ) ≥ (0 : ℚ)) := by
  decide

/-- C1 (amended): `shouldTick(now)` returns true exactly when
`now > nextDeadline` (strict): `shouldTick(t0 - 1)` and `shouldTick(t0)`
both return false, and `shouldTick(t0 + 1)` returns true. -/
theorem shouldTick_strict (now next_tick t0 : ℚ) :
    (shouldTick now next_tick = true ↔ now > next_tick) ∧
    shouldTick (t0 - 1) t0 = false ∧
    shouldTick t0 t0 = false ∧
    shouldTick (t0 + 1) t0 = true := by
  refine ⟨by simp [shouldTick], ?_, ?_, ?_⟩
  · simp [shouldTick]
  · simp [shouldTick]
  · simp [shouldTick]

/-- C2: when a tick fires the deadline advances by exactly one interval
(`TICK_STEP = 250` ms) and otherwise it is unchanged; a single pass fires
at most one tick, so even when `now` is several intervals past the
deadline the deadline still advances by exactly 250. -/
theorem tick_advances_one_interval (now next_tick : ℚ) :
    ((mainLoopTick now next_tick).1 = true →
      (mainLoopTick now next_tick).2 = next_tick + TICK_STEP) ∧
    ((mainLoopTick now next_tick).1 = false →
      (mainLoopTick now next_tick).2 = next_tick) ∧
    (now > next_tick + 3 * TICK_STEP →
      (mainLoopTick now next_tick).2 = next_tick + TICK_STEP) := by
  refine ⟨?_, ?_, ?_⟩ <;> intro h
  · by_cases hc : shouldTick now next_tick = true <;>
      simp [mainLoopTick, hc] at h ⊢
  · by_cases hc : shouldTick now next_tick = true <;>
      simp [mainLoopTick, hc] at h ⊢
  · have hgt : now > next_tick := by
      have h3 : (0 : ℚ) < 3 * TICK_STEP := by norm_num [TICK_STEP]
      linarith
    simp [mainLoopTick, shouldTick, hgt]

/-- C2 witness: a check arriving four intervals late (now = 1000 against a
deadline of 0) still advances the deadline by exactly one interval. -/
theorem late_tick_witness : (mainLoopTick 1000 0).2 = 0 + TICK_STEP :=
  (tick_advances_one_interval 1000 0).2.2 (by norm_num [TICK_STEP])

/-! ## Theorems for the projectile claims -/

/-- C5 counterexample: with direction (2,0) the squared distance moved in
one step is (1/10)² = 1/100, not speed² = 1/400 — the velocity is the
scalar speed times the raw direction vector, not times a unit vector, so
the distance per tick is not the scalar speed. -/
theorem velocity_not_normalized_counterexample :
    normSq (Projectile.velocity
        (Projectile.mk (Rect.mk 0 0 600 600) (2, 0) (0, 0) ProjectileState.MOVING))
      ≠ (Projectile.speed
        (Projectile.mk (Rect.mk 0 0 600 600) (2, 0) (0, 0) ProjectileState.MOVING)) ^ 2 := by
  norm_num [Projectile.velocity, Projectile.speed, vsmul, normSq]

/-- C5 (amended): the velocity used by one `process_logic` step equals the
scalar speed (0.05 = 1/20) multiplied by the raw (unnormalised) direction
vector, so the squared distance moved per tick is speed² · ‖dir‖² — it
scales with the magnitude of the direction vector supplied at
construction. -/
theorem velocity_scales_raw_direction (p : Projectile) :
    p.velocity = (p.speed * p.dir.1, p.speed * p.dir.2) ∧
    p.speed = 1 / 20 ∧
    normSq p.velocity = p.speed ^ 2 * normSq p.dir := by
  refine ⟨rfl, rfl, ?_⟩
  simp only [Projectile.velocity, vsmul, normSq]
  ring

/-- C6: for `f ∈ [0,1]`, `get_render_position f` equals
`curr_pos + f · velocity` (linear extrapolation toward the predicted
next-tick position); at 0 it is exactly the current position and at 1 the
current position plus one full velocity step.  The function reads the
projectile and returns a fresh vector: the stored position is untouched. -/
theorem render_position_linear_extrapolation (p : Projectile) (f : ℚ)
    (_h0 : 0 ≤ f) (_h1 : f ≤ 1) :
    p.get_render_position f = vadd p.curr_pos (vsmul f p.velocity) ∧
    p.get_render_position 0 = p.curr_pos ∧
    p.get_render_position 1 = vadd p.curr_pos p.velocity := by
  refine ⟨?_, ?_, ?_⟩ <;>
    simp only [Projectile.get_render_position, lerp, vadd, vsmul] <;>
    refine Prod.ext ?_ ?_ <;> dsimp only <;> ring

/-- C6 witness: the theorem instantiated at a concrete projectile and
`f = 1/2 ∈ [0,1]`. -/
theorem render_position_witness :
    (Projectile.mk (Rect.mk 0 0 600 600) (2, 4) (10, 20) ProjectileState.MOVING).get_render_position 0
      = (Projectile.mk (Rect.mk 0 0 600 600) (2, 4) (10, 20) ProjectileState.MOVING).curr_pos :=
  (render_position_linear_extrapolation
    (Projectile.mk (Rect.mk 0 0 600 600) (2, 4) (10, 20) ProjectileState.MOVING)
    (1 / 2) (by norm_num) (by norm_num)).2.1

/-- C7: `process_logic` first adds the velocity to the position, then tests
the new position against the arena rectangle: outside ⇒ DELETED in that
same step; still inside ⇒ a MOVING projectile stays MOVING.  In the spec's
scenario (arena (0,0)-(600,600), start (590,300), velocity (10,0)) the
position after one step is (600,300) and after a second step the position
is (610,300) and the projectile is DELETED. -/
theorem process_logic_integrates_then_tests_bounds (p : Projectile) :
    (p.process_logic).curr_pos = vadd p.curr_pos p.velocity ∧
    (p.blueprint.collidepoint (vadd p.curr_pos p.velocity).1
        (vadd p.curr_pos p.velocity).2 = false →
      (p.process_logic).state = ProjectileState.DELETED) ∧
    (p.state = ProjectileState.MOVING →
      p.blueprint.collidepoint (vadd p.curr_pos p.velocity).1
        (vadd p.curr_pos p.velocity).2 = true →
      (p.process_logic).state = ProjectileState.MOVING) ∧
    scenario_projectile.process_logic.curr_pos = (600, 300) ∧
    scenario_projectile.process_logic.process_logic.curr_pos = (610, 300) ∧
    scenario_projectile.process_logic.process_logic.state = ProjectileState.DELETED := by
  have h1 : scenario_projectile.process_logic
      = Projectile.mk (Rect.mk 0 0 600 600) (200, 0) (600, 300) ProjectileState.DELETED := by
    norm_num [scenario_projectile, Projectile.process_logic, Projectile.oos_collision,
      Rect.collidepoint, Projectile.velocity, Projectile.speed, vadd, vsmul, Prod.ext_iff]
  have h2 : scenario_projectile.process_logic.process_logic
      = Projectile.mk (Rect.mk 0 0 600 600) (200, 0) (610, 300) ProjectileState.DELETED := by
    norm_num [scenario_projectile, Projectile.process_logic, Projectile.oos_collision,
      Rect.collidepoint, Projectile.velocity, Projectile.speed, vadd, vsmul, Prod.ext_iff]
  refine ⟨?_, ?_, ?_, by rw [h1], by rw [h2], by rw [h2]⟩
  · by_cases h : (Projectile.oos_collision
        { p with curr_pos := vadd p.curr_pos p.velocity }) <;>
      simp [Projectile.process_logic, h]
  · intro h
    simp [Projectile.process_logic, Projectile.oos_collision, h]
  · intro hm h
    simp [Projectile.process_logic, Projectile.oos_collision, h, hm]

/-- C7 witness: the boundary-outward part of the theorem at the scenario
projectile — its first step lands at (600,300), outside the
inclusive-exclusive arena, so one step deletes it. -/
theorem process_logic_boundary_witness :
    scenario_projectile.process_logic.state = ProjectileState.DELETED :=
  (process_logic_integrates_then_tests_bounds scenario_projectile).2.1 (by
    norm_num [scenario_projectile, Rect.collidepoint, Projectile.velocity,
      Projectile.speed, vadd, vsmul])

/-- C8: one manager tick steps every projectile exactly once (a single
`List.map` pass) and afterwards keeps exactly the projectiles still MOVING:
the result is the stepped list filtered to MOVING, every survivor is
MOVING, every projectile whose step left it MOVING survives, and every
survivor is the once-stepped image of a managed projectile.  Removal is
deferred: `to_be_removed` is collected during the pass and subtracted only
afterwards. -/
theorem manager_steps_once_and_purges (ps : List Projectile) :
    ProjectileManager.process_logic ps
      = (ps.map Projectile.process_logic).filter
          (fun q => decide (q.state = ProjectileState.MOVING)) ∧
    (∀ q ∈ ProjectileManager.process_logic ps, q.state = ProjectileState.MOVING) ∧
    (∀ r ∈ ps, (Projectile.process_logic r).state = ProjectileState.MOVING →
      Projectile.process_logic r ∈ ProjectileManager.process_logic ps) ∧
    (∀ q ∈ ProjectileManager.process_logic ps,
      ∃ r ∈ ps, q = Projectile.process_logic r) := by
  have hmain : ProjectileManager.process_logic ps
      = (ps.map Projectile.process_logic).filter
          (fun q => decide (q.state = ProjectileState.MOVING)) := by
    unfold ProjectileManager.process_logic
    apply List.filter_congr
    intro x hx
    simp only [decide_eq_decide, List.mem_filter, decide_eq_true_eq]
    cases hstate : x.state <;> simp [hx, hstate]
  refine ⟨hmain, ?_, ?_, ?_⟩
  · intro q hq
    rw [hmain] at hq
    exact of_decide_eq_true (List.mem_filter.mp hq).2
  · intro r hr hstate
    rw [hmain]
    exact List.mem_filter.mpr
      ⟨List.mem_map_of_mem Projectile.process_logic hr, decide_eq_true hstate⟩
  · intro q hq
    rw [hmain] at hq
    obtain ⟨r, hr, hrq⟩ := List.mem_map.mp (List.mem_filter.mp hq).1
    exact ⟨r, hr, hrq.symm⟩

/-- C8 witness: a two-projectile tick — one stays inside the arena and
survives the purge; the theorem's survival part is applied to it. -/
theorem manager_purge_witness :
    Projectile.process_logic
        (Projectile.mk (Rect.mk 0 0 600 600) (0, 0) (10, 10) ProjectileState.MOVING)
      ∈ ProjectileManager.process_logic
          [Projectile.mk (Rect.mk 0 0 600 600) (0, 0) (10, 10) ProjectileState.MOVING,
           scenario_projectile] :=
  (manager_steps_once_and_purges
      [Projectile.mk (Rect.mk 0 0 600 600) (0, 0) (10, 10) ProjectileState.MOVING,
       scenario_projectile]).2.2.1
    (Projectile.mk (Rect.mk 0 0 600 600) (0, 0) (10, 10) ProjectileState.MOVING)
    (by simp) (by
      norm_num [Projectile.process_logic, Projectile.oos_collision, Rect.collidepoint,
        Projectile.velocity, Projectile.speed, vadd, vsmul])

/-- C9: for a cell within the grid bounds, the element's rectangle has
top-left corner (x·step, y·step) and size (step, step), and the render
position is that same corner — a pure function of the cell and the
configured cell size. -/
theorem cell_to_rect_corner_and_size (p : Point) (columns rows : Int) (step : ℚ)
    (_hx0 : 0 ≤ p.x) (_hxc : p.x < columns) (_hy0 : 0 ≤ p.y) (_hyr : p.y < rows) :
    GridElement.rect step p
        = Rect.mk ((p.x : ℚ) * step) ((p.y : ℚ) * step) step step ∧
    GridElement.render_pos step p = ((p.x : ℚ) * step, (p.y : ℚ) * step) :=
  ⟨rfl, rfl⟩

/-- C9 witness: the cell (2,3) of the 20×20 grid with 30-pixel cells. -/
theorem cell_to_rect_witness :
    GridElement.rect 30 (Point.mk 2 3) = Rect.mk 60 90 30 30 := by
  have h := (cell_to_rect_corner_and_size (Point.mk 2 3) 20 20 30
    (by norm_num) (by norm_num) (by norm_num) (by norm_num)).1
  rw [h]
  norm_num

/-! ## Theorems for the turret aim claim -/

/-- Rotation by any angle preserves the length of a vector. -/
theorem length_rotate (v : ℝ × ℝ) (angle_deg : ℝ) :
    Vector2.length (Vector2.rotate v angle_deg) = Vector2.length v := by
  unfold Vector2.length Vector2.rotate
  congr 1
  have h := Real.sin_sq_add_cos_sq (angle_deg * Real.pi / 180)
  dsimp only
  linear_combination (v.1 ^ 2 + v.2 ^ 2) * h

/-- `from_polar` with a nonnegative radius produces a vector of that
length. -/
theorem length_from_polar (r angle_deg : ℝ) (hr : 0 ≤ r) :
    Vector2.length (Vector2.from_polar r angle_deg) = r := by
  have h := Real.sin_sq_add_cos_sq (angle_deg * Real.pi / 180)
  unfold Vector2.length Vector2.from_polar
  dsimp only
  have h2 : (r * Real.cos (angle_deg * Real.pi / 180)) ^ 2
      + (r * Real.sin (angle_deg * Real.pi / 180)) ^ 2 = r ^ 2 := by
    linear_combination r ^ 2 * h
  rw [h2, Real.sqrt_sq hr]

/-- One `handle_event` call never changes the aim's length: the only
mutations rotate the aim, and rotations preserve length. -/
theorem length_handle_event (t : Turret) (e : Event) :
    Vector2.length ((t.handle_event e).aim) = Vector2.length t.aim := by
  unfold Turret.handle_event
  split_ifs <;>
    simp [Turret.decrease_angle, Turret.increase_angle, length_rotate]

/-- Folding any event sequence through `handle_event` preserves the aim's
length. -/
theorem length_foldl_handle_event (events : List Event) (t : Turret) :
    Vector2.length ((events.foldl Turret.handle_event t).aim)
      = Vector2.length t.aim := by
  induction events generalizing t with
  | nil => rfl
  | cons e es ih => rw [List.foldl_cons, ih, length_handle_event]

/-- C10: over any sequence of `handle_event` calls the magnitude of the aim
vector is invariant and stays at its construction value
`block_size.length() * AIM_RATE`; the only mutations are the K_RIGHT/K_LEFT
key-down rotations (length-preserving), and every other event — wrong type
or unrecognized key — leaves the turret unchanged. -/
theorem aim_length_invariant (block_size : ℝ × ℝ) (events : List Event) :
    Vector2.length ((events.foldl Turret.handle_event (Turret.init block_size)).aim)
      = Vector2.length block_size * AIM_RATE ∧
    (∀ t : Turret, ∀ e : Event, e.etype ≠ KEYDOWN → t.handle_event e = t) ∧
    (∀ t : Turret, ∀ e : Event, e.etype = KEYDOWN →
      e.key ≠ K_RIGHT → e.key ≠ K_LEFT → t.handle_event e = t) := by
  refine ⟨?_, ?_, ?_⟩
  · rw [length_foldl_handle_event]
    have hrate : (0 : ℝ) ≤ AIM_RATE := by norm_num [AIM_RATE]
    have hr : 0 ≤ Vector2.length block_size * AIM_RATE :=
      mul_nonneg (Real.sqrt_nonneg _) hrate
    exact length_from_polar _ INITIAL_ANGLE hr
  · intro t e he
    simp [Turret.handle_event, he]
  · intro t e he hright hleft
    simp [Turret.handle_event, he, hright, hleft]

/-- C10 witness: a key-down event with an unrecognized key leaves a
concretely-constructed turret unchanged. -/
theorem aim_unrecognized_event_witness :
    (Turret.init (3, 4)).handle_event (Event.mk 768 97) = Turret.init (3, 4) :=
  (aim_length_invariant (3, 4) []).2.2 (Turret.init (3, 4)) (Event.mk 768 97)
    rfl (by decide) (by decide)
